import Mathlib

/-!
# Shallow embedding of `bedag/vault-secret-broker`, `pkg/vault/client.go`

This file embeds the AppRole authentication / rotation logic, the client
lifecycle (construction, background renewal loop, close) and the CA-trust
reload watcher of `pkg/vault/client.go`, and proves the frozen claims
about them.

Modelling conventions:
* The filesystem is a map `Fs := String → Option String` (file content;
  `none` models a read error / missing file).  A write either succeeds
  (`writeOk = true`) and updates the map, or fails, exactly as
  `ioutil.WriteFile` can fail in `Approle.Persist`.
* The remote Vault service is a function
  `server : String → Payload → Except String Secret` standing for
  `logical.Write(path, payload)`.
* Go panics (nil-pointer dereference, failed type assertion) are made
  explicit with the `Outcome` type: Go's partial operations are total in
  Lean, so `Login` returns `Outcome LoginResult`.
* `viper.GetString key` is a function `viperGet : String → String`
  (viper returns `""` for unset keys).
-/

namespace VaultBroker

/-- Filesystem content: path ↦ file content, `none` = unreadable/missing. -/
abbrev Fs : Type := String → Option String

/-- A request payload, `map[string]interface\x7b\x7d` whose values here are
always strings (as in all three payloads built by `Approle.Login`). -/
abbrev Payload : Type := List (String × String)

/-- `ioutil.ReadFile`: content on success, error otherwise. -/
def readFile (fs : Fs) (path : String) : Except String String :=
  match fs path with
  | some c => .ok c
  | none => .error ("open " ++ path ++ ": no such file or directory")

/-- `ioutil.WriteFile` that succeeds iff `writeOk` (write errors such as
permissions are environment-determined, not data-determined). -/
def writeFile (fs : Fs) (path content : String) (writeOk : Bool) :
    Except String Fs :=
  if writeOk then .ok (fun p => if p = path then some content else fs p)
  else .error ("open " ++ path ++ ": permission denied")

/-- A value stored in `Secret.Data` (`map[string]interface\x7b\x7d`): either a
string, or some non-string value (on which a `.(string)` assertion panics). -/
inductive DataVal where
  | str (s : String)
  | nonString
deriving DecidableEq, Repr

/-- `vaultapi.SecretAuth`: the part of the auth block `Login` reads. -/
structure SecretAuth where
  clientToken : String
deriving DecidableEq, Repr

/-- `vaultapi.Secret`: the fields of the response that the code reads.
`auth := none` models a response whose `Auth` pointer is nil. -/
structure Secret where
  auth : Option SecretAuth
  data : List (String × DataVal)
  leaseID : String
deriving DecidableEq, Repr

/-- Lookup in a `Secret.Data` map (`secret.Data["secret_id"]`). -/
def lookupData (data : List (String × DataVal)) (key : String) :
    Option DataVal :=
  match data with
  | [] => none
  | (k, v) :: rest => if k = key then some v else lookupData rest key

/-- The `Approle` struct of client.go (lines 312-325). -/
structure Approle where
  roleID : String
  secretID : String
  token : String
  secretIDStorePath : String
  persisted : Bool
deriving DecidableEq, Repr

/-- `Approle.Persist` (client.go 516-523): write the current SecretID to
`secretIDStorePath`; on failure only warn (returning `persisted = false`),
on success set `persisted = true`. -/
def Persist (a : Approle) (fs : Fs) (writeOk : Bool) : Approle × Fs :=
  match writeFile fs a.secretIDStorePath a.secretID writeOk with
  | .error _ => (a, fs)
  | .ok fs2 => ({ a with persisted := true }, fs2)

/-- `Approle.SetSecretID` (client.go 506-510): mark unpersisted, set the
secret id, try to persist. -/
def SetSecretID (a : Approle) (secretID : String) (fs : Fs) (writeOk : Bool) :
    Approle × Fs :=
  Persist { a with persisted := false, secretID := secretID } fs writeOk

/-- Which of the three `logical.Write` call sites in `Approle.Login` a
remote call came from. -/
inductive CallTag where
  | login
  | issue
  | destroy
deriving DecidableEq, Repr

/-- One remote `logical.Write(path, payload)` call made by `Login`. -/
structure RemoteCall where
  tag : CallTag
  path : String
  payload : Payload
deriving DecidableEq, Repr

/-- Warning-level log events emitted by the approle code. -/
inductive WarnEvent where
  | persistFailed
  | destroyFailed
deriving DecidableEq, Repr

/-- The environment `Approle.Login` runs in: the remote service and
whether filesystem writes succeed. -/
structure LoginEnv where
  server : String → Payload → Except String Secret
  writeOk : Bool

/-- Everything observable about one `Approle.Login` execution: the two
returned values, the approle state and filesystem afterwards, the trace of
remote calls, the tokens passed to `rawClient.SetToken`, and the
warning-level log events. -/
structure LoginResult where
  secret : Option Secret
  err : Option String
  approle : Approle
  fs : Fs
  calls : List RemoteCall
  setTokens : List String
  warns : List WarnEvent

/-- A Go computation that either finishes or panics. -/
inductive Outcome (α : Type) where
  | ok (r : α)
  | panics (msg : String)

/-- `auth/<authPath>/login` (client.go 474). -/
def loginPath (authPath : String) : String :=
  "auth/" ++ authPath ++ "/login"

/-- `auth/<authPath>/role/<role>/secret-id` (client.go 486). -/
def issuePath (authPath role : String) : String :=
  "auth/" ++ authPath ++ "/role/" ++ role ++ "/secret-id"

/-- `auth/<authPath>/role/<role>/secret-id/destroy` (client.go 497). -/
def destroyPath (authPath role : String) : String :=
  "auth/" ++ authPath ++ "/role/" ++ role ++ "/secret-id/destroy"

/-- `Approle.Login` (client.go 469-503), translated statement by statement.

1. `logical.Write(login, {role_id, secret_id})`; on error return `(nil, err)`.
2. `approle.token = tokenSecret.Auth.ClientToken` — panics when `Auth` is nil;
   `rawClient.SetToken`.
3. `logical.Write(issue, {})`; on error return `(tokenSecret, err)` with the
   approle secret and the store file untouched.
4. capture `oldSecretID`, then `SetSecretID(secretIDSecret.Data["secret_id"]
   .(string))` — panics when the entry is missing or not a string.
5. `logical.Write(destroy, {secret_id: oldSecretID})`; on error only
   `log.Warn`.
6. `return tokenSecret, err` — note: `err` here is the error of the destroy
   call of step 5. -/
def Login (a : Approle) (fs : Fs) (env : LoginEnv) (authPath role : String) :
    Outcome LoginResult :=
  let payload1 : Payload := [("role_id", a.roleID), ("secret_id", a.secretID)]
  let c1 : RemoteCall := ⟨.login, loginPath authPath, payload1⟩
  match env.server (loginPath authPath) payload1 with
  | .error e =>
      .ok ⟨none, some e, a, fs, [c1], [], []⟩
  | .ok tokenSecret =>
    match tokenSecret.auth with
    | none => .panics "runtime error: invalid memory address or nil pointer dereference"
    | some auth =>
      let a2 : Approle := { a with token := auth.clientToken }
      let toks : List String := [auth.clientToken]
      let c2 : RemoteCall := ⟨.issue, issuePath authPath role, []⟩
      match env.server (issuePath authPath role) [] with
      | .error e =>
          .ok ⟨some tokenSecret, some e, a2, fs, [c1, c2], toks, []⟩
      | .ok secretIDSecret =>
        match lookupData secretIDSecret.data "secret_id" with
        | some (.str newSecretID) =>
          let oldSecretID := a2.secretID
          let afterSet := SetSecretID a2 newSecretID fs env.writeOk
          let a3 := afterSet.1
          let fs3 := afterSet.2
          let warns1 : List WarnEvent :=
            if env.writeOk then [] else [.persistFailed]
          let payload3 : Payload := [("secret_id", oldSecretID)]
          let c3 : RemoteCall := ⟨.destroy, destroyPath authPath role, payload3⟩
          match env.server (destroyPath authPath role) payload3 with
          | .error e =>
              .ok ⟨some tokenSecret, some e, a3, fs3, [c1, c2, c3], toks,
                warns1 ++ [.destroyFailed]⟩
          | .ok _ =>
              .ok ⟨some tokenSecret, none, a3, fs3, [c1, c2, c3], toks, warns1⟩
        | _ => .panics "interface conversion: interface is nil or not string"

/-! ## Approle construction (client.go 327-464) -/

/-- The `approleOptions` struct (client.go 328-334). -/
structure approleOptions where
  roleID : String
  roleIDPath : String
  initialSecretID : String
  initialSecretIDPath : String
  secretIDStorePath : String
deriving DecidableEq, Repr

/-- The zero value `&approleOptions\x7b\x7d`. -/
def emptyApproleOptions : approleOptions := ⟨"", "", "", "", ""⟩

/-- The five `ApproleOption` implementations (client.go 344-377), one
constructor per option type. -/
inductive ApproleOption where
  | roleID (s : String)
  | roleIDPath (s : String)
  | initialSecretID (s : String)
  | initialSecretIDPath (s : String)
  | secretIDStorePath (s : String)
deriving DecidableEq, Repr

/-- The `apply` methods of the options (client.go 347-377).  Note that
`ApproleSecretIDStorePath.apply` (line 376) assigns `o.initialSecretIDPath`,
not `o.secretIDStorePath`. -/
def applyOpt (o : approleOptions) : ApproleOption → approleOptions
  | .roleID s => { o with roleID := s }
  | .roleIDPath s => { o with roleIDPath := s }
  | .initialSecretID s => { o with initialSecretID := s }
  | .initialSecretIDPath s => { o with initialSecretIDPath := s }
  | .secretIDStorePath s => { o with initialSecretIDPath := s }

/-- The options loop of `NewApproleWithOptions` (client.go 386-390). -/
def foldOpts (opts : List ApproleOption) : approleOptions :=
  opts.foldl applyOpt emptyApproleOptions

/-- Client.go 399-410: fill `roleIDPath`, `initialSecretIDPath` and
`secretIDStorePath` from the configuration when the options left them
empty. -/
def fillPaths (o : approleOptions) (viperGet : String → String) :
    approleOptions :=
  let o1 := if o.roleIDPath = ""
    then { o with roleIDPath := viperGet "vault-approle-roleid-path" } else o
  let o2 := if o1.initialSecretIDPath = ""
    then { o1 with
      initialSecretIDPath := viperGet "vault-approle-initial-secretid-path" }
    else o1
  if o2.secretIDStorePath = ""
  then { o2 with
    secretIDStorePath := viperGet "vault-approle-secretid-store-path" }
  else o2

/-- Client.go 412-430: resolve the RoleID — explicit value, else the
configured value, else the role-id file (a failed read is fatal); fail if
still empty. -/
def resolveRoleID (o : approleOptions) (viperGet : String → String)
    (fs : Fs) : Except String approleOptions :=
  let o1 := if o.roleID = ""
    then { o with roleID := viperGet "vault-approle-roleid" } else o
  match (if o1.roleID = ""
      then (readFile fs o1.roleIDPath).map fun c => { o1 with roleID := c }
      else .ok o1) with
  | .error e => .error e
  | .ok o2 =>
    if o2.roleID = "" then .error "failed to retrieve the AppRole RoleID"
    else .ok o2

/-- Client.go 432-458: resolve the initial SecretID — explicit value,
else the persistent store file (a failed read is skipped), else the
configured value, else the initial-secret file (a failed read is fatal);
fail if still empty. -/
def resolveInitialSecretID (o : approleOptions) (viperGet : String → String)
    (fs : Fs) : Except String approleOptions :=
  let o1 := if o.initialSecretID = ""
    then match readFile fs o.secretIDStorePath with
      | .ok c => { o with initialSecretID := c }
      | .error _ => o
    else o
  let o2 := if o1.initialSecretID = ""
    then { o1 with
      initialSecretID := viperGet "vault-approle-initial-secretid" }
    else o1
  match (if o2.initialSecretID = ""
      then (readFile fs o2.initialSecretIDPath).map
        fun c => { o2 with initialSecretID := c }
      else .ok o2) with
  | .error e => .error e
  | .ok o3 =>
    if o3.initialSecretID = "" then
      .error "failed to retrieve the initial AppRole SecretID"
    else .ok o3

/-- `NewApproleWithOptions` after the options have been folded
(client.go 392-463): fill the three paths from viper, resolve the RoleID,
resolve the initial SecretID, build the `Approle` (client.go 460) and
`SetSecretID` it (client.go 461). -/
def newApproleFromOptions (o0 : approleOptions) (viperGet : String → String)
    (fs : Fs) (writeOk : Bool) : Except String (Approle × Fs) :=
  match resolveRoleID (fillPaths o0 viperGet) viperGet fs with
  | .error e => .error e
  | .ok oR =>
    match resolveInitialSecretID oR viperGet fs with
    | .error e => .error e
    | .ok oS =>
      .ok (SetSecretID
        { roleID := oS.roleID, secretID := "", token := "",
          secretIDStorePath := oS.secretIDStorePath, persisted := false }
        oS.initialSecretID fs writeOk)

/-- `NewApproleWithOptions` (client.go 385-464). -/
def NewApproleWithOptions (opts : List ApproleOption)
    (viperGet : String → String) (fs : Fs) (writeOk : Bool) :
    Except String (Approle × Fs) :=
  newApproleFromOptions (foldOpts opts) viperGet fs writeOk

/-- The path `Approle.Persist` writes to (client.go 517,
`ioutil.WriteFile(approle.secretIDStorePath, ...)`). -/
def persistTarget (a : Approle) : String := a.secretIDStorePath

/-! ## Client lifecycle (client.go 63-270) -/

/-- The `vaultapi.Renewer` handle as far as this code observes it:
`Stop()` sets the stopped flag (the library's `Stop` is idempotent). -/
structure RenewerHandle where
  stopped : Bool
deriving DecidableEq, Repr

/-- The `fsnotify.Watcher` handle: `Close()` marks it closed. -/
structure WatchHandle where
  isClosed : Bool
deriving DecidableEq, Repr

/-- The mutex-guarded fields of `Client` (client.go 65-73) that the
lifecycle claims are about: the `closed` flag, the active renewer and the
active filesystem watcher. -/
structure ClientState where
  closed : Bool
  tokenRenewer : Option RenewerHandle
  watch : Option WatchHandle
deriving DecidableEq, Repr

/-- `client := &Client\x7b...\x7d` (client.go 171): zero `closed`,
nil `tokenRenewer`, nil `watch`. -/
def initialClientState : ClientState :=
  { closed := false, tokenRenewer := none, watch := none }

/-- `Client.Close` (client.go 258-270): under the lock, if `tokenRenewer`
is non-nil set `closed = true` and stop the renewer; if `watch` is non-nil
close it.  Note `closed = true` is assigned only inside the
`tokenRenewer != nil` branch. -/
def Close (c : ClientState) : ClientState :=
  let c1 := match c.tokenRenewer with
    | some r => { c with closed := true, tokenRenewer := some { r with stopped := true } }
    | none => c
  match c1.watch with
  | some w => { c1 with watch := some { w with isClosed := true } }
  | none => c1

/-- How one iteration of the renewal loop (client.go 177-222) ended. -/
inductive LoopOutcome where
  | exited
  | retryAfterError
  | retryAfterNilSecret
  | retryAfterRenewerError
  | renewing
deriving DecidableEq, Repr

/-- One iteration of the background renewal loop (client.go 177-222):
lock, exit if `closed`; otherwise call `approle.Login` (its outcome is the
`loginResult` argument), unlock; on error or nil secret sleep and retry;
otherwise build a renewer (`renewerOk` is whether `NewRenewer` succeeded),
register it under the lock and run the renewal.  Returns the state after
the iteration, whether a login attempt was made, and how the iteration
ended. -/
def renewLoopIteration (c : ClientState)
    (loginResult : Option Secret × Option String) (renewerOk : Bool) :
    ClientState × Bool × LoopOutcome :=
  if c.closed then (c, false, .exited)
  else
    match loginResult with
    | (_, some _) => (c, true, .retryAfterError)
    | (none, none) => (c, true, .retryAfterNilSecret)
    | (some _, none) =>
      if renewerOk then
        ({ c with tokenRenewer := some { stopped := false } }, true, .renewing)
      else (c, true, .retryAfterRenewerError)

/-- The startup gate (client.go 226-233): if the initial token arrived
within `initialTokenTimeout`, return the client; on timeout call
`client.Close()` and return a nil client with a timeout error.  Returns
(returned client, returned error, client state after the gate). -/
def startupGate (tokenArrivedWithinTimeout : Bool) (c : ClientState) :
    Option ClientState × Option String × ClientState :=
  if tokenArrivedWithinTimeout then (some c, none, c)
  else
    (none, some "timeout [10s] during waiting for Vault token", Close c)

/-! ## Trust-reload watcher (client.go 97-140) -/

/-- `fsnotify.Create` (bit 1 of `Op`). -/
def fsnotifyCreate : Nat := 1

/-- `fsnotify.Write` (bit 2 of `Op`). -/
def fsnotifyWrite : Nat := 2

/-- An `fsnotify.Event`: a path and an operation bitmask. -/
structure FsEvent where
  name : String
  op : Nat
deriving DecidableEq, Repr

/-- The event filter and reload of the watcher goroutine
(client.go 122-131): reload (`config.ReadEnvironment()`, counted) exactly
when `filepath.Clean(event.Name) == caCertFile` or
`filepath.Base(event.Name) == "..data"`, and the operation has the Write
or the Create bit.  `clean` and `base` stand for `filepath.Clean` and
`filepath.Base`; `caCertFile` is the cleaned configured CA path
(client.go 106).  Returns the number of reload calls for this event. -/
def handleEvent (clean base : String → String) (caCertFile : String)
    (e : FsEvent) : Nat :=
  if clean e.name = caCertFile || base e.name = "..data" then
    if e.op &&& fsnotifyWrite = fsnotifyWrite
        || e.op &&& fsnotifyCreate = fsnotifyCreate then 1
    else 0
  else 0

/-- One iteration of the watcher goroutine (client.go 112-136): lock,
exit if `closed` (processing no event); otherwise handle the next event.
Returns (exited, number of reload calls). -/
def watcherLoopIteration (clean base : String → String) (caCertFile : String)
    (c : ClientState) (e : FsEvent) : Bool × Nat :=
  if c.closed then (true, 0)
  else (false, handleEvent clean base caCertFile e)

/-! ## Lock-discipline trace of the renewal loop (client.go 176-222)

The renewal loop's body, on the path where a login fully succeeds, as a
sequence of atomic actions, each recorded with whether `client.mu` is held
while it runs and whether it belongs to the `approle.Login` call. -/

/-- Kinds of actions the renewal-loop body performs. -/
inductive ActKind where
  | lockAcquire
  | closedCheck
  | netCall
  | stateWrite
  | lockRelease
  | channelSend
  | renewWait
deriving DecidableEq, Repr

/-- One action of the loop body: whether the mutex is held while it runs,
its kind, whether it is part of the `approle.Login` call, and the source
location it comes from. -/
structure LoopAct where
  lockHeld : Bool
  kind : ActKind
  inLoginPhase : Bool
  descr : String
deriving DecidableEq, Repr

/-- The renewal-loop body on the fully-successful path, in program order:
`mu.Lock` (178), the closed check (179), the three remote writes and two
state writes of `approle.Login` (474, 482-483, 486, 492-493, 497, all
reached from line 186, under the lock), `mu.Unlock` (187), the initial
token send (204), `NewRenewer` (209), the locked renewer registration
(215-217), `go tokenRenewer.Renew()` (219, network, outside the lock) and
`runRenewChecker` (221). -/
def renewLoopBodyActs : List LoopAct := [
  ⟨false, .lockAcquire, false, "client.mu.Lock line 178"⟩,
  ⟨true, .closedCheck, false, "closed check line 179"⟩,
  ⟨true, .netCall, true, "login write line 474"⟩,
  ⟨true, .stateWrite, true, "token store and SetToken lines 482-483"⟩,
  ⟨true, .netCall, true, "secret-id issue write line 486"⟩,
  ⟨true, .stateWrite, true, "SetSecretID lines 492-493"⟩,
  ⟨true, .netCall, true, "secret-id destroy write line 497"⟩,
  ⟨true, .lockRelease, false, "client.mu.Unlock line 187"⟩,
  ⟨false, .channelSend, false, "initialTokenArrived send line 204"⟩,
  ⟨false, .stateWrite, false, "NewRenewer line 209"⟩,
  ⟨false, .lockAcquire, false, "client.mu.Lock line 215"⟩,
  ⟨true, .stateWrite, false, "tokenRenewer assignment line 216"⟩,
  ⟨true, .lockRelease, false, "client.mu.Unlock line 217"⟩,
  ⟨false, .netCall, false, "tokenRenewer.Renew line 219"⟩,
  ⟨false, .renewWait, false, "runRenewChecker line 221"⟩]

/-- The number of network calls the loop body performs while holding
`client.mu`. -/
def netCallsUnderLock : Nat :=
  (renewLoopBodyActs.filter fun a => a.kind == .netCall && a.lockHeld).length

/-! ## Spec-side definition for the source-precedence claim

Written from the spec's words ("Sources are tried strictly in order;
first non-empty wins"), to be compared with `NewApproleWithOptions`. -/

/-- The first non-empty string of a list of sources, `""` if none. -/
def specFirstNonEmpty : List String → String
  | [] => ""
  | s :: rest => if s = "" then specFirstNonEmpty rest else s

/-- The role-id file path `NewApproleWithOptions` ends up using
(client.go 400-402): the explicit option if non-empty, else the
configured value. -/
def resolvedRoleIDPath (opts : List ApproleOption)
    (viperGet : String → String) : String :=
  if (foldOpts opts).roleIDPath = ""
  then viperGet "vault-approle-roleid-path" else (foldOpts opts).roleIDPath

/-- The initial-secret file path `NewApproleWithOptions` ends up using
(client.go 404-406). -/
def resolvedInitialSecretIDPath (opts : List ApproleOption)
    (viperGet : String → String) : String :=
  if (foldOpts opts).initialSecretIDPath = ""
  then viperGet "vault-approle-initial-secretid-path"
  else (foldOpts opts).initialSecretIDPath

/-- The secret-id store path `NewApproleWithOptions` ends up using
(client.go 408-410). -/
def resolvedStorePath (opts : List ApproleOption)
    (viperGet : String → String) : String :=
  if (foldOpts opts).secretIDStorePath = ""
  then viperGet "vault-approle-secretid-store-path"
  else (foldOpts opts).secretIDStorePath

/-! ## Concrete fixtures for witnesses and counterexamples -/

/-- An empty filesystem. -/
def fsEmpty : Fs := fun _ => none

/-- A concrete approle: role `role1`, current secret `s0`, store file
`storefile`. -/
def approle0 : Approle :=
  { roleID := "role1", secretID := "s0", token := "",
    secretIDStorePath := "storefile", persisted := false }

/-- A login response carrying token `tok1`. -/
def tokenSecret1 : Secret :=
  { auth := some { clientToken := "tok1" }, data := [], leaseID := "lease1" }

/-- An issue response carrying new secret id `s1`. -/
def issueSecret1 : Secret :=
  { auth := none, data := [("secret_id", .str "s1")], leaseID := "" }

/-- A server for which login and issue succeed and destroy fails. -/
def envDestroyFails : LoginEnv :=
  { server := fun p _ =>
      if p = loginPath "approle" then .ok tokenSecret1
      else if p = issuePath "approle" "r1" then .ok issueSecret1
      else if p = destroyPath "approle" "r1" then .error "destroy failed"
      else .error "unexpected path",
    writeOk := true }

/-- A server for which login, issue and destroy all succeed. -/
def envAllOk : LoginEnv :=
  { server := fun p _ =>
      if p = loginPath "approle" then .ok tokenSecret1
      else if p = issuePath "approle" "r1" then .ok issueSecret1
      else if p = destroyPath "approle" "r1" then
        .ok { auth := none, data := [], leaseID := "" }
      else .error "unexpected path",
    writeOk := true }

/-- A server for which login succeeds and issuing a new secret fails. -/
def envIssueFails : LoginEnv :=
  { server := fun p _ =>
      if p = loginPath "approle" then .ok tokenSecret1
      else .error "issue failed",
    writeOk := true }

/-- A server whose successful login response has a nil `Auth` block. -/
def envNilAuth : LoginEnv :=
  { server := fun p _ =>
      if p = loginPath "approle" then
        .ok { auth := none, data := [], leaseID := "lease1" }
      else .error "unexpected path",
    writeOk := true }

/-- A server whose issue response holds a non-string `secret_id`. -/
def envNonStringSecretID : LoginEnv :=
  { server := fun p _ =>
      if p = loginPath "approle" then .ok tokenSecret1
      else if p = issuePath "approle" "r1" then
        .ok { auth := none, data := [("secret_id", .nonString)], leaseID := "" }
      else .error "unexpected path",
    writeOk := true }

/-- A server whose issue response has no `secret_id` entry at all. -/
def envMissingSecretID : LoginEnv :=
  { server := fun p _ =>
      if p = loginPath "approle" then .ok tokenSecret1
      else if p = issuePath "approle" "r1" then
        .ok { auth := none, data := [], leaseID := "" }
      else .error "unexpected path",
    writeOk := true }

/-- The returned error of a `Login` run (`none` when it panicked:
a panicking call returns nothing). -/
def resultErr : Outcome LoginResult → Option String
  | .ok r => r.err
  | .panics _ => none

/-- The returned `*vaultapi.Secret` of a `Login` run. -/
def resultSecret : Outcome LoginResult → Option Secret
  | .ok r => r.secret
  | .panics _ => none

/-- The approle state after a `Login` run. -/
def resultApprole : Outcome LoginResult → Option Approle
  | .ok r => some r.approle
  | .panics _ => none

/-- The filesystem after a `Login` run. -/
def resultFs : Outcome LoginResult → Option Fs
  | .ok r => some r.fs
  | .panics _ => none

/-- The remote calls a `Login` run made. -/
def resultCalls : Outcome LoginResult → List RemoteCall
  | .ok r => r.calls
  | .panics _ => []

/-- The tokens a `Login` run passed to `rawClient.SetToken`. -/
def resultSetTokens : Outcome LoginResult → List String
  | .ok r => r.setTokens
  | .panics _ => []

/-- The warning-level log events of a `Login` run. -/
def resultWarns : Outcome LoginResult → List WarnEvent
  | .ok r => r.warns
  | .panics _ => []

/-! ## Helper lemmas -/

/-- `SetSecretID` leaves every field but `secretID` and `persisted`
unchanged, sets `secretID`, and sets `persisted` iff the write succeeded. -/
theorem SetSecretID_fst (a : Approle) (s : String) (fs : Fs) (w : Bool) :
    (SetSecretID a s fs w).1 = { a with secretID := s, persisted := w } := by
  cases w <;> simp [SetSecretID, Persist, writeFile]

/-- Reading from a total filesystem always succeeds. -/
theorem readFile_total (g : String → String) (p : String) :
    readFile (fun q => some (g q)) p = .ok (g p) := rfl

/-- Folding any option list never touches `secretIDStorePath`: no option
constructor assigns it (client.go 347-377). -/
theorem foldOpts_storePath (opts : List ApproleOption) :
    (foldOpts opts).secretIDStorePath = "" := by
  have h : ∀ (o : approleOptions),
      (opts.foldl applyOpt o).secretIDStorePath = o.secretIDStorePath := by
    induction opts with
    | nil => intro o; rfl
    | cons x xs ih => intro o; cases x <;> simp [List.foldl, applyOpt, ih]
  exact h emptyApproleOptions

/-- `fillPaths` only replaces the three empty path fields with their
configured values. -/
theorem fillPaths_eq (o : approleOptions) (v : String → String) :
    fillPaths o v =
      { o with
        roleIDPath := if o.roleIDPath = ""
          then v "vault-approle-roleid-path" else o.roleIDPath,
        initialSecretIDPath := if o.initialSecretIDPath = ""
          then v "vault-approle-initial-secretid-path"
          else o.initialSecretIDPath,
        secretIDStorePath := if o.secretIDStorePath = ""
          then v "vault-approle-secretid-store-path"
          else o.secretIDStorePath } := by
  unfold fillPaths
  split_ifs <;> simp_all

/-- `resolveRoleID` only changes the `roleID` field. -/
theorem resolveRoleID_shape {o : approleOptions} {v : String → String}
    {fs : Fs} {o2 : approleOptions} (h : resolveRoleID o v fs = .ok o2) :
    o2 = { o with roleID := o2.roleID } := by
  unfold resolveRoleID at h
  by_cases h0 : o.roleID = ""
  · by_cases h1 : v "vault-approle-roleid" = ""
    · simp [h0, h1] at h
      rcases hr : readFile fs o.roleIDPath with e | c <;> rw [hr] at h <;>
        simp [Except.map] at h
      by_cases h2 : c = ""
      · simp [h2] at h
      · simp [h2] at h
        subst h
        rfl
    · simp [h0, h1] at h
      subst h
      rfl
  · simp [h0] at h
    subst h
    rfl

/-- `resolveInitialSecretID` only changes the `initialSecretID` field. -/
theorem resolveInitialSecretID_shape {o : approleOptions}
    {v : String → String} {fs : Fs} {o2 : approleOptions}
    (h : resolveInitialSecretID o v fs = .ok o2) :
    o2 = { o with initialSecretID := o2.initialSecretID } := by
  unfold resolveInitialSecretID at h
  by_cases h0 : o.initialSecretID = ""
  · rcases hr : readFile fs o.secretIDStorePath with e | c <;> rw [hr] at h
    · simp [h0] at h
      by_cases h1 : v "vault-approle-initial-secretid" = ""
      · simp [h1] at h
        rcases hr2 : readFile fs o.initialSecretIDPath with e2 | c2 <;>
          rw [hr2] at h <;> simp [Except.map] at h
        by_cases h2 : c2 = ""
        · simp [h2] at h
        · simp [h2] at h
          subst h
          rfl
      · simp [h1] at h
        subst h
        rfl
    · simp [h0] at h
      by_cases h1 : c = ""
      · simp [h1] at h
        by_cases h2 : v "vault-approle-initial-secretid" = ""
        · simp [h2] at h
          rcases hr2 : readFile fs o.initialSecretIDPath with e2 | c2 <;>
            rw [hr2] at h <;> simp [Except.map] at h
          by_cases h3 : c2 = ""
          · simp [h3] at h
          · simp [h3] at h
            subst h
            rfl
        · simp [h2] at h
          subst h
          rfl
      · simp [h1] at h
        subst h
        rfl
  · simp [h0] at h
    subst h
    rfl

/-- With a total filesystem, the resolved `roleID` is the first non-empty
source in the order explicit value, configured value, role-id file. -/
theorem resolveRoleID_total_roleID {o : approleOptions} {v : String → String}
    {g : String → String} {o2 : approleOptions}
    (h : resolveRoleID o v (fun p => some (g p)) = .ok o2) :
    o2.roleID =
      specFirstNonEmpty [o.roleID, v "vault-approle-roleid", g o.roleIDPath] := by
  unfold resolveRoleID at h
  by_cases h0 : o.roleID = ""
  · by_cases h1 : v "vault-approle-roleid" = ""
    · simp [h0, h1, readFile, Except.map] at h
      by_cases h2 : g o.roleIDPath = ""
      · simp [h2] at h
      · simp [h2] at h
        subst h
        simp [specFirstNonEmpty, h0, h1, h2]
    · simp [h0, h1] at h
      subst h
      simp [specFirstNonEmpty, h0, h1]
  · simp [h0] at h
    subst h
    simp [specFirstNonEmpty, h0]

/-- With a total filesystem, the resolved `initialSecretID` is the first
non-empty source in the order explicit value, persistent store file,
configured value, initial-secret file. -/
theorem resolveInitialSecretID_total_secretID {o : approleOptions}
    {v : String → String} {g : String → String} {o2 : approleOptions}
    (h : resolveInitialSecretID o v (fun p => some (g p)) = .ok o2) :
    o2.initialSecretID =
      specFirstNonEmpty [o.initialSecretID, g o.secretIDStorePath,
        v "vault-approle-initial-secretid", g o.initialSecretIDPath] := by
  unfold resolveInitialSecretID at h
  by_cases h0 : o.initialSecretID = ""
  · simp only [h0, if_pos, readFile] at h
    by_cases h1 : g o.secretIDStorePath = ""
    · simp [h1] at h
      by_cases h2 : v "vault-approle-initial-secretid" = ""
      · simp [h2, readFile, Except.map] at h
        by_cases h3 : g o.initialSecretIDPath = ""
        · simp [h3] at h
        · simp [h3] at h
          subst h
          simp [specFirstNonEmpty, h0, h1, h2, h3]
      · simp [h2] at h
        subst h
        simp [specFirstNonEmpty, h0, h1, h2]
    · simp [h1] at h
      subst h
      simp [specFirstNonEmpty, h0, h1]
  · simp [h0] at h
    subst h
    simp [specFirstNonEmpty, h0]

/-! ## Claims -/

/-- Claim C1, counterexample: a concrete execution in which login and
issue succeed and the destroy call fails with `destroy failed` — the
returned error is that destroy error, not nil as the claim states
(client.go 502 returns the `err` of line 497). -/
theorem claim1_counterexample :
    resultErr (Login approle0 fsEmpty envDestroyFails "approle" "r1") =
      some "destroy failed" ∧
    resultErr (Login approle0 fsEmpty envDestroyFails "approle" "r1") ≠
      none := by
  exact ⟨by decide, by decide⟩

/-- Claim C1, amended: when the login and issue calls succeed but the
destroy call fails, `Approle.Login` returns the login response (hence the
token from it) and logs the destruction failure at warning level, but the
returned error is the destroy call's error (non-nil) — destruction failure
does affect the returned error. -/
theorem claim1_amended_destroy_error_returned
    (a : Approle) (fs : Fs) (env : LoginEnv) (ap role : String)
    (ts ss : Secret) (au : SecretAuth) (ns e : String)
    (h1 : env.server (loginPath ap)
      [("role_id", a.roleID), ("secret_id", a.secretID)] = .ok ts)
    (h2 : ts.auth = some au)
    (h3 : env.server (issuePath ap role) [] = .ok ss)
    (h4 : lookupData ss.data "secret_id" = some (.str ns))
    (h5 : env.server (destroyPath ap role)
      [("secret_id", a.secretID)] = .error e) :
    resultSecret (Login a fs env ap role) = some ts ∧
    resultErr (Login a fs env ap role) = some e ∧
    WarnEvent.destroyFailed ∈ resultWarns (Login a fs env ap role) := by
  simp only [Login, h1, h2, h3, h4, h5]
  exact ⟨rfl, rfl, by simp [resultWarns]⟩

/-- Claim C1, witness: the amended theorem applied to the concrete
destroy-failing environment. -/
theorem claim1_amended_witness :
    envDestroyFails.server (loginPath "approle")
      [("role_id", approle0.roleID), ("secret_id", approle0.secretID)] =
        .ok tokenSecret1 ∧
    envDestroyFails.server (destroyPath "approle" "r1")
      [("secret_id", approle0.secretID)] = .error "destroy failed" ∧
    resultSecret (Login approle0 fsEmpty envDestroyFails "approle" "r1") =
      some tokenSecret1 ∧
    resultErr (Login approle0 fsEmpty envDestroyFails "approle" "r1") =
      some "destroy failed" ∧
    WarnEvent.destroyFailed ∈
      resultWarns (Login approle0 fsEmpty envDestroyFails "approle" "r1") := by
  have h := claim1_amended_destroy_error_returned approle0 fsEmpty
    envDestroyFails "approle" "r1" tokenSecret1 issueSecret1
    ⟨"tok1"⟩ "s1" "destroy failed" rfl rfl rfl rfl rfl
  exact ⟨rfl, rfl, h.1, h.2.1, h.2.2⟩

/-- Claim C2, evaluated at the failing input: on the timeout path (no
login succeeded, so `tokenRenewer` is nil) construction does return a nil
client and the timeout error, but `Close` (client.go 262-265) sets
`closed = true` only inside its `tokenRenewer != nil` branch, so the
`closed` flag stays false and the next iteration of the background loop
still performs a login attempt instead of exiting — the loop is not
stopped, contradicting the claim. -/
theorem claim2_timeout_close_does_not_stop_loop :
    startupGate false initialClientState =
      (none, some "timeout [10s] during waiting for Vault token",
        initialClientState) ∧
    (Close initialClientState).closed = false ∧
    renewLoopIteration ((startupGate false initialClientState).2.2)
        (none, some "connection refused") true =
      (initialClientState, true, LoopOutcome.retryAfterError) := by decide

/-- Claim C3: when the login call succeeds and the issue-new-secret call
fails, `Approle.Login` returns the login response (whose token field is
the non-empty login token) together with the issue error, sets only the
token on the approle (the current secret `secretID` is unchanged), leaves
the filesystem — hence the persisted store file — unchanged, and passed
exactly the login token to `SetToken`. -/
theorem claim3_issue_failure_returns_token_keeps_secret
    (a : Approle) (fs : Fs) (env : LoginEnv) (ap role : String)
    (ts : Secret) (au : SecretAuth) (e : String)
    (h1 : env.server (loginPath ap)
      [("role_id", a.roleID), ("secret_id", a.secretID)] = .ok ts)
    (h2 : ts.auth = some au)
    (h3 : env.server (issuePath ap role) [] = .error e)
    (hne : au.clientToken ≠ "") :
    resultSecret (Login a fs env ap role) = some ts ∧
    resultErr (Login a fs env ap role) = some e ∧
    resultApprole (Login a fs env ap role) =
      some { a with token := au.clientToken } ∧
    resultFs (Login a fs env ap role) = some fs ∧
    resultSetTokens (Login a fs env ap role) = [au.clientToken] ∧
    au.clientToken ≠ "" := by
  simp only [Login, h1, h2, h3]
  exact ⟨rfl, rfl, rfl, rfl, rfl, hne⟩

/-- Claim C3, witness: the theorem applied to the concrete
issue-failing environment. -/
theorem claim3_witness :
    envIssueFails.server (issuePath "approle" "r1") [] =
      .error "issue failed" ∧
    resultSecret (Login approle0 fsEmpty envIssueFails "approle" "r1") =
      some tokenSecret1 ∧
    resultErr (Login approle0 fsEmpty envIssueFails "approle" "r1") =
      some "issue failed" ∧
    resultApprole (Login approle0 fsEmpty envIssueFails "approle" "r1") =
      some { approle0 with token := "tok1" } ∧
    resultFs (Login approle0 fsEmpty envIssueFails "approle" "r1") =
      some fsEmpty ∧
    resultSetTokens (Login approle0 fsEmpty envIssueFails "approle" "r1") =
      ["tok1"] := by
  have h := claim3_issue_failure_returns_token_keeps_secret approle0 fsEmpty
    envIssueFails "approle" "r1" tokenSecret1 ⟨"tok1"⟩ "issue failed"
    rfl rfl rfl (by decide)
  exact ⟨rfl, h.1, h.2.1, h.2.2.1, h.2.2.2.1, h.2.2.2.2.1⟩

/-- Claim C4: for every option/configuration/file-content combination
(a total filesystem `fun p => some (g p)`, so every source is its
content, `""` meaning unpopulated), a successful `NewApproleWithOptions`
resolves the role identifier to the first non-empty of explicit option,
configured value, role-id file, and the initial secret to the first
non-empty of explicit option, persistent store file, configured value,
initial-secret file — the first non-empty source always wins. -/
theorem claim4_source_precedence (opts : List ApproleOption)
    (v g : String → String) (w : Bool) (a : Approle) (f : Fs)
    (h : NewApproleWithOptions opts v (fun p => some (g p)) w = .ok (a, f)) :
    a.roleID = specFirstNonEmpty [(foldOpts opts).roleID,
      v "vault-approle-roleid", g (resolvedRoleIDPath opts v)] ∧
    a.secretID = specFirstNonEmpty [(foldOpts opts).initialSecretID,
      g (resolvedStorePath opts v), v "vault-approle-initial-secretid",
      g (resolvedInitialSecretIDPath opts v)] := by
  unfold NewApproleWithOptions newApproleFromOptions at h
  rcases hR : resolveRoleID (fillPaths (foldOpts opts) v) v
      (fun p => some (g p)) with e | oR <;> simp only [hR] at h
  · exact Except.noConfusion h
  rcases hS : resolveInitialSecretID oR v (fun p => some (g p)) with e | oS <;>
    simp only [hS] at h
  · exact Except.noConfusion h
  injection h with h
  have ha := congrArg Prod.fst h
  rw [SetSecretID_fst] at ha
  simp at ha
  have haRole : a.roleID = oS.roleID := by rw [← ha]
  have haSec : a.secretID = oS.initialSecretID := by rw [← ha]
  have hosr : oS.roleID = oR.roleID := by
    conv_lhs => rw [resolveInitialSecretID_shape hS]
  have hors : oR.initialSecretID = (foldOpts opts).initialSecretID := by
    conv_lhs => rw [resolveRoleID_shape hR]
    simp [fillPaths_eq]
  have horp : oR.secretIDStorePath = resolvedStorePath opts v := by
    conv_lhs => rw [resolveRoleID_shape hR]
    simp [fillPaths_eq, resolvedStorePath]
  have hori : oR.initialSecretIDPath = resolvedInitialSecretIDPath opts v := by
    conv_lhs => rw [resolveRoleID_shape hR]
    simp [fillPaths_eq, resolvedInitialSecretIDPath]
  have hrole := resolveRoleID_total_roleID hR
  have hsec := resolveInitialSecretID_total_secretID hS
  constructor
  · rw [haRole, hosr, hrole]
    simp [fillPaths_eq, resolvedRoleIDPath]
  · rw [haSec, hsec, hors, horp, hori]

/-- Claim C4, witness: explicit role id and initial secret beat the
(empty) configured values and (empty) files. -/
theorem claim4_witness :
    NewApproleWithOptions
        [ApproleOption.roleID "r", ApproleOption.initialSecretID "s"]
        (fun _ => "") (fun p => some ((fun _ => "") p)) true =
      .ok ({ roleID := "r", secretID := "s", token := "",
             secretIDStorePath := "", persisted := true },
           fun p => if p = "" then some "s" else some ((fun _ => "") p)) ∧
    ({ roleID := "r", secretID := "s", token := "",
       secretIDStorePath := "", persisted := true } : Approle).roleID = "r" ∧
    ({ roleID := "r", secretID := "s", token := "",
       secretIDStorePath := "", persisted := true } : Approle).secretID =
      "s" := by
  have h := claim4_source_precedence
    [ApproleOption.roleID "r", ApproleOption.initialSecretID "s"]
    (fun _ => "") (fun _ => "") true
    { roleID := "r", secretID := "s", token := "",
      secretIDStorePath := "", persisted := true }
    (fun p => if p = "" then some "s" else some ((fun _ => "") p)) rfl
  exact ⟨rfl, h.1, h.2⟩

/-- Claim C5: when login, issue and destroy all succeed, `Approle.Login`
makes exactly one issue call and exactly one destroy call (its full call
trace is login, issue, destroy), the destroy payload carries the secret
that was current before the login — never the newly issued `ns` — and the
approle afterwards holds the new secret: it was replaced only after the
old value was captured into the destroy payload. -/
theorem claim5_rotation_calls
    (a : Approle) (fs : Fs) (env : LoginEnv) (ap role : String)
    (ts ss ds : Secret) (au : SecretAuth) (ns : String)
    (h1 : env.server (loginPath ap)
      [("role_id", a.roleID), ("secret_id", a.secretID)] = .ok ts)
    (h2 : ts.auth = some au)
    (h3 : env.server (issuePath ap role) [] = .ok ss)
    (h4 : lookupData ss.data "secret_id" = some (.str ns))
    (h5 : env.server (destroyPath ap role)
      [("secret_id", a.secretID)] = .ok ds) :
    resultCalls (Login a fs env ap role) =
      [⟨.login, loginPath ap, [("role_id", a.roleID), ("secret_id", a.secretID)]⟩,
       ⟨.issue, issuePath ap role, []⟩,
       ⟨.destroy, destroyPath ap role, [("secret_id", a.secretID)]⟩] ∧
    ((resultCalls (Login a fs env ap role)).filter
      fun c => c.tag == CallTag.issue).length = 1 ∧
    ((resultCalls (Login a fs env ap role)).filter
      fun c => c.tag == CallTag.destroy).length = 1 ∧
    resultApprole (Login a fs env ap role) =
      some { a with
        token := au.clientToken
        secretID := ns
        persisted := env.writeOk } ∧
    resultErr (Login a fs env ap role) = none ∧
    resultSecret (Login a fs env ap role) = some ts := by
  simp only [Login, h1, h2, h3, h4, h5]
  refine ⟨rfl, rfl, rfl, ?_, rfl, rfl⟩
  simp [resultApprole, SetSecretID_fst]

/-- Claim C5, witness: the theorem applied to the concrete all-succeeding
environment. -/
theorem claim5_witness :
    envAllOk.server (destroyPath "approle" "r1")
      [("secret_id", approle0.secretID)] =
        .ok { auth := none, data := [], leaseID := "" } ∧
    resultCalls (Login approle0 fsEmpty envAllOk "approle" "r1") =
      [⟨.login, loginPath "approle",
        [("role_id", "role1"), ("secret_id", "s0")]⟩,
       ⟨.issue, issuePath "approle" "r1", []⟩,
       ⟨.destroy, destroyPath "approle" "r1", [("secret_id", "s0")]⟩] ∧
    resultApprole (Login approle0 fsEmpty envAllOk "approle" "r1") =
      some { roleID := "role1", secretID := "s1", token := "tok1",
             secretIDStorePath := "storefile", persisted := true } := by
  have h := claim5_rotation_calls approle0 fsEmpty envAllOk "approle" "r1"
    tokenSecret1 issueSecret1 { auth := none, data := [], leaseID := "" }
    ⟨"tok1"⟩ "s1" rfl rfl rfl rfl rfl
  exact ⟨rfl, h.1, h.2.2.2.1⟩

/-- Claim C6: once the `closed` flag is true, a renewal-loop iteration
exits immediately with no login attempt and no state change, a watcher
iteration exits processing no event (zero reloads), and a second `Close`
after any `Close` changes nothing (it only re-assigns `closed = true`,
`stopped` and the watcher-closed flag to values they already have — no
component is stopped twice into a different state, and the model is a
total function, so no panic). -/
theorem claim6_closed_is_terminal
    (c : ClientState) (lr : Option Secret × Option String) (rok : Bool)
    (clean base : String → String) (caFile : String) (e : FsEvent)
    (hc : c.closed = true) :
    renewLoopIteration c lr rok = (c, false, LoopOutcome.exited) ∧
    watcherLoopIteration clean base caFile c e = (true, 0) ∧
    Close (Close c) = Close c := by
  refine ⟨by simp [renewLoopIteration, hc],
    by simp [watcherLoopIteration, hc], ?_⟩
  rcases c with ⟨cl, tr, w⟩
  rcases tr with _ | r <;> rcases w with _ | wv <;> simp [Close]

/-- Claim C6, witness: the theorem applied to a concrete closed client
(renewer stopped, watcher closed — the state after a first `Close`). -/
theorem claim6_witness :
    (⟨true, some ⟨true⟩, some ⟨true⟩⟩ : ClientState).closed = true ∧
    renewLoopIteration ⟨true, some ⟨true⟩, some ⟨true⟩⟩ (none, none) true =
      (⟨true, some ⟨true⟩, some ⟨true⟩⟩, false, LoopOutcome.exited) ∧
    watcherLoopIteration (fun s => s) (fun s => s) "ca"
        ⟨true, some ⟨true⟩, some ⟨true⟩⟩ ⟨"ca", 2⟩ = (true, 0) ∧
    Close (Close ⟨true, some ⟨true⟩, some ⟨true⟩⟩) =
      Close ⟨true, some ⟨true⟩, some ⟨true⟩⟩ := by
  have h := claim6_closed_is_terminal ⟨true, some ⟨true⟩, some ⟨true⟩⟩
    (none, none) true (fun s => s) (fun s => s) "ca" ⟨"ca", 2⟩ rfl
  exact ⟨rfl, h.1, h.2.1, h.2.2⟩

/-- Claim C7: for every filesystem event, the watcher performs at most
one reload, and performs exactly one reload if and only if the event's
cleaned path equals the configured CA file or the event's base name is
the Kubernetes atomic-update marker `..data`, and the event's operation
has the Write or the Create bit.  In particular an event matching neither
path triggers no reload, and a matching event without write/create
triggers none. -/
theorem claim7_trust_reload_filter (clean base : String → String)
    (caCertFile : String) (e : FsEvent) :
    (handleEvent clean base caCertFile e = 0 ∨
     handleEvent clean base caCertFile e = 1) ∧
    (handleEvent clean base caCertFile e = 1 ↔
      ((clean e.name = caCertFile ∨ base e.name = "..data") ∧
        (e.op &&& fsnotifyWrite = fsnotifyWrite ∨
         e.op &&& fsnotifyCreate = fsnotifyCreate))) := by
  unfold handleEvent
  split_ifs with h1 h2 <;> simp_all

/-- Claim C8, counterexample: the renewal loop's body performs three
network calls (the login, issue and destroy writes of `approle.Login`,
reached from client.go 186) while holding `client.mu` (locked at 178,
unlocked at 187), so it is false that no network call runs under the
lock. -/
theorem claim8_counterexample :
    ¬ (∀ a ∈ renewLoopBodyActs, a.kind = ActKind.netCall →
        a.lockHeld = false) ∧
    netCallsUnderLock = 3 := by decide

/-- Claim C8, amended: the connection lock IS held across the three
blocking network calls of `approle.Login` — the comment at client.go
183-185 makes this deliberate, to serialize the state-mutating rotation.
A network call of the loop body runs under the lock exactly when it
belongs to that login/rotation phase; the renewal network I/O
(`tokenRenewer.Renew`, line 219) runs outside the lock. -/
theorem claim8_amended_lock_held_only_for_login
    (a : LoopAct) (hmem : a ∈ renewLoopBodyActs)
    (hnet : a.kind = ActKind.netCall) :
    a.lockHeld = true ↔ a.inLoginPhase = true := by
  have hall : ∀ x ∈ renewLoopBodyActs, x.kind = ActKind.netCall →
      (x.lockHeld = true ↔ x.inLoginPhase = true) := by decide
  exact hall a hmem hnet

/-- Claim C8, witness: the amended theorem applied to the login write
(under the lock, in the login phase) of the loop body. -/
theorem claim8_amended_witness :
    (⟨true, ActKind.netCall, true, "login write line 474"⟩ : LoopAct) ∈
      renewLoopBodyActs ∧
    ((⟨true, ActKind.netCall, true, "login write line 474"⟩ :
        LoopAct).lockHeld = true ↔
      (⟨true, ActKind.netCall, true, "login write line 474"⟩ :
        LoopAct).inLoginPhase = true) := by
  refine ⟨by decide, ?_⟩
  exact claim8_amended_lock_held_only_for_login
    ⟨true, ActKind.netCall, true, "login write line 474"⟩ (by decide) rfl

/-- Claim C9: the `ApproleSecretIDStorePath` option's `apply`
(client.go 376) assigns `initialSecretIDPath`, not `secretIDStorePath`,
so no option ever sets the store path, and for every successful
construction the path `Approle.Persist` writes to is the configured
`vault-approle-secretid-store-path` value, regardless of the options
passed. -/
theorem claim9_storepath_option_misassigned :
    (∀ (o : approleOptions) (s : String),
      applyOpt o (.secretIDStorePath s) =
        { o with initialSecretIDPath := s }) ∧
    (∀ (opts : List ApproleOption) (v : String → String) (fs : Fs)
      (w : Bool) (a : Approle) (f : Fs),
      NewApproleWithOptions opts v fs w = .ok (a, f) →
      persistTarget a = v "vault-approle-secretid-store-path") := by
  constructor
  · intro o s
    rfl
  · intro opts v fs w a f h
    unfold NewApproleWithOptions newApproleFromOptions at h
    rcases hR : resolveRoleID (fillPaths (foldOpts opts) v) v fs with
      e | oR <;> simp only [hR] at h
    · exact Except.noConfusion h
    rcases hS : resolveInitialSecretID oR v fs with e | oS <;>
      simp only [hS] at h
    · exact Except.noConfusion h
    injection h with h
    have ha := congrArg Prod.fst h
    rw [SetSecretID_fst] at ha
    simp at ha
    have haP : persistTarget a = oS.secretIDStorePath := by
      rw [persistTarget, ← ha]
    rw [haP]
    have hsr : oS.secretIDStorePath = oR.secretIDStorePath := by
      conv_lhs => rw [resolveInitialSecretID_shape hS]
    have hrp : oR.secretIDStorePath =
        v "vault-approle-secretid-store-path" := by
      conv_lhs => rw [resolveRoleID_shape hR]
      simp [fillPaths_eq, foldOpts_storePath]
    rw [hsr, hrp]

/-- Claim C9, witness: passing `ApproleSecretIDStorePath "redirected"`
redirects the initial-secret file (whose content `filesecret` becomes the
secret), while the store path — and hence the `Persist` target — is the
configured `realstore`. -/
theorem claim9_witness :
    NewApproleWithOptions
        [ApproleOption.roleID "r", ApproleOption.secretIDStorePath "redirected"]
        (fun k => if k = "vault-approle-secretid-store-path"
          then "realstore" else "")
        (fun p => if p = "redirected" then some "filesecret" else none)
        true =
      .ok ({ roleID := "r", secretID := "filesecret", token := "",
             secretIDStorePath := "realstore", persisted := true },
           fun p => if p = "realstore" then some "filesecret"
             else if p = "redirected" then some "filesecret" else none) ∧
    persistTarget { roleID := "r", secretID := "filesecret", token := "",
                    secretIDStorePath := "realstore", persisted := true } =
      "realstore" ∧
    applyOpt emptyApproleOptions (.secretIDStorePath "x") =
      { emptyApproleOptions with initialSecretIDPath := "x" } := by
  refine ⟨rfl, ?_, claim9_storepath_option_misassigned.1
    emptyApproleOptions "x"⟩
  exact claim9_storepath_option_misassigned.2
    [ApproleOption.roleID "r", ApproleOption.secretIDStorePath "redirected"]
    (fun k => if k = "vault-approle-secretid-store-path"
      then "realstore" else "")
    (fun p => if p = "redirected" then some "filesecret" else none) true
    { roleID := "r", secretID := "filesecret", token := "",
      secretIDStorePath := "realstore", persisted := true }
    (fun p => if p = "realstore" then some "filesecret"
      else if p = "redirected" then some "filesecret" else none) rfl

/-- Claim C10: `Approle.Login` dereferences `tokenSecret.Auth` and
type-asserts `secretIDSecret.Data["secret_id"]` with no nil or type
check: with remote calls succeeding but returning a nil `Auth`, a
non-string `secret_id`, or no `secret_id` at all, `Login` panics instead
of returning an error. -/
theorem claim10_login_panics_on_malformed_response :
    Login approle0 fsEmpty envNilAuth "approle" "r1" =
      .panics "runtime error: invalid memory address or nil pointer dereference" ∧
    Login approle0 fsEmpty envNonStringSecretID "approle" "r1" =
      .panics "interface conversion: interface is nil or not string" ∧
    Login approle0 fsEmpty envMissingSecretID "approle" "r1" =
      .panics "interface conversion: interface is nil or not string" :=
  ⟨rfl, rfl, rfl⟩

end VaultBroker
